import Mathlib

/-!
Verification of the helper layer of a sports-fixture REST API
(`src/server.js`): credential hashing, JWT token issuance/verification,
a Redis-backed cache-aside adapter, session accessors, response shaping
and record-existence lookups.  Pure functions of the source are embedded
directly; effectful calls (Redis, the document store) are embedded as
explicit state passing; external library primitives (bcrypt, jsonwebtoken)
that are not part of the repository are modelled from the spec as
idealized, collision-free cryptographic kernels.
-/

namespace PremierLeague

/-! ## Credential codec (`hashPassword` / `comparePassword`) -/

/-- Modelled from the spec: the bcrypt library is an external collaborator
(not in the repository).  A bcrypt hash embeds the cost factor and the
random salt together with a digest derived one-way from (salt, cost,
password); the digest is idealized as collision-free, so it is represented
by the triple that determines it. -/
structure BcryptHash where
  cost : Nat
  salt : Nat
  digest : Nat × Nat × String
deriving DecidableEq, Repr

/-- Modelled from the spec: the idealized bcrypt key-derivation kernel. -/
def bcryptDigest (salt : Nat) (cost : Nat) (password : String) : Nat × Nat × String :=
  (salt, cost, password)

/-- Source `hashPassword(password, salt = 10)`: delegates to `bcrypt.hash`.  The
random salt drawn by the library is passed explicitly. -/
def hashPassword (password : String) (cost : Nat) (saltDrawn : Nat) : BcryptHash :=
  { cost := cost, salt := saltDrawn, digest := bcryptDigest saltDrawn cost password }

/-- Source `comparePassword(password, existingUserPassword)`: delegates to
`bcrypt.compareSync`, which re-derives the digest using the salt and cost
embedded in the stored hash and compares. -/
def comparePassword (password : String) (existingUserPassword : BcryptHash) : Bool :=
  bcryptDigest existingUserPassword.salt existingUserPassword.cost password
    == existingUserPassword.digest

/-! ## Token service (`generateToken` / `verifyToken`) -/

/-- A JWT payload: the claim fields, as name/value pairs. -/
abbrev Payload := List (String × String)

/-- Modelled from the spec: the jsonwebtoken library is an external
collaborator (not in the repository).  The HMAC signature over the signed
segments of the token is idealized as collision-free, so it is represented
by the data that determines it: the secret, the payload and the expiry
claim. -/
def jwtMac (secret : String) (payload : Payload) (exp : Nat) : String × Payload × Nat :=
  (secret, payload, exp)

/-- A signed token: three dot-separated segments — header (fixed), payload
together with the expiry claim, and the signature. -/
structure Token where
  payload : Payload
  exp : Nat
  sig : String × Payload × Nat
deriving DecidableEq, Repr

/-- The two distinguishable failure kinds of `jwt.verify`. -/
inductive TokenError where
  | invalid
  | expired
deriving DecidableEq, Repr

/-- Thirty days in seconds, the default `expiresIn` of `generateToken`. -/
def thirtyDays : Nat := 30 * 24 * 3600

/-- Source `generateToken(payload, expiresIn)` (default thirty days): signs the payload plus
an expiry claim with the process-wide secret.  The current time and the
secret, ambient in the source, are passed explicitly. -/
def generateToken (secret : String) (now : Nat) (payload : Payload)
    (expiresIn : Nat) : Token :=
  { payload := payload
    exp := now + expiresIn
    sig := jwtMac secret payload (now + expiresIn) }

/-- Source `verifyToken(token)`: delegates to `jwt.verify`, which checks the
signature against the process-wide secret (failing with the invalid kind),
then the expiry claim against the current time (failing with the expired
kind), and on success returns the payload. -/
def verifyToken (secret : String) (now : Nat) (t : Token) : Except TokenError Payload :=
  if t.sig ≠ jwtMac secret t.payload t.exp then .error .invalid
  else if t.exp ≤ now then .error .expired
  else .ok t.payload

/-! ## Cache-aside adapter (`storeToRedis` / `getFromRedis` / `removeFromRedis`) -/

/-- A JSON-serializable value stored in the cache. -/
inductive JVal where
  | jstr (s : String)
  | jnum (n : Int)
  | jobj (fields : List (String × JVal))
deriving Repr

mutual

/-- Serialization of a value, as `JSON.stringify`. -/
def JVal.stringify : JVal → String
  | .jstr s => "\"" ++ s ++ "\""
  | .jnum n => toString n
  | .jobj fields => "\x7b" ++ JVal.stringifyFields fields ++ "\x7d"

/-- Serialization of the field list of an object, as `JSON.stringify`. -/
def JVal.stringifyFields : List (String × JVal) → String
  | [] => ""
  | [(k, v)] => "\"" ++ k ++ "\":" ++ JVal.stringify v
  | (k, v) :: rest =>
      "\"" ++ k ++ "\":" ++ JVal.stringify v ++ "," ++ JVal.stringifyFields rest

end

/-- The Redis store: each key maps to a stored string and its absolute
expiry instant (seconds). -/
def RedisState := String → Option (String × Nat)

/-- Source `storeToRedis(key, values, timeout = 3600)`: `SETEX` of the
JSON-stringified value under the key with the given time-to-live,
overwriting any existing entry and resetting its expiry. -/
def storeToRedis (st : RedisState) (now : Nat) (key : String) (values : JVal)
    (timeout : Nat) : RedisState :=
  fun k => if k = key then some (values.stringify, now + timeout) else st k

/-- Source `removeFromRedis(key)`: `DEL` of the key. -/
def removeFromRedis (st : RedisState) (key : String) : RedisState :=
  fun k => if k = key then none else st k

/-- What `GET key` answers on a healthy backend at the given instant: the
stored string while the entry has not expired, absence otherwise. -/
def redisLookup (st : RedisState) (now : Nat) (key : String) : Option String :=
  match st key with
  | some (v, e) => if now < e then some v else none
  | none => none

/-- The observable outcome of `getFromRedis`: either the callback was run
on the (possibly absent) raw string, or an error was thrown inside the
reply handler and the callback never ran. -/
inductive GetOutcome (α : Type) where
  | delivered (r : α)
  | thrown (msg : String)
deriving DecidableEq, Repr

/-- Source `getFromRedis(key, callback)`: issues `GET` and, in the reply handler,
throws `new Error` when the backend reported an error, otherwise
returns `callback(result)`.  The backend reply is passed explicitly:
`Except` error string on an unreachable backend, `Option` raw string on a
healthy one. -/
def getFromRedis (reply : Except String (Option String))
    (callback : Option String → α) : GetOutcome α :=
  match reply with
  | .error e => .thrown e
  | .ok result => .delivered (callback result)

/-- The reply of a healthy backend for a key. -/
def healthyReply (st : RedisState) (now : Nat) (key : String) :
    Except String (Option String) :=
  .ok (redisLookup st now key)

/-! ## Session accessor (`getRequestUser` / `setRequestUser`) -/

/-- A user object attached to a request. -/
abbrev UserObj := List (String × String)

/-- The request-scoped persistent session object. -/
structure Session where
  user : Option UserObj
deriving DecidableEq, Repr

/-- An express request, restricted to the fields the accessors touch: the
per-request `user` field and the `session` object. -/
structure Req where
  user : Option UserObj
  session : Session
deriving DecidableEq, Repr

/-- Source `getRequestUser(req)`: reads `req.user` in test mode,
`req.session.user` otherwise.  The mode flag is passed explicitly. -/
def getRequestUser (testMode : Bool) (req : Req) : Option UserObj :=
  if testMode then req.user else req.session.user

/-- Source `setRequestUser(req, userObject)`: assigns `req.user` in test
mode, `req.session.user` otherwise. -/
def setRequestUser (testMode : Bool) (req : Req) (userObject : UserObj) : Req :=
  if testMode then { req with user := some userObject }
  else { req with session := { user := some userObject } }

/-! ## Router catch-all and response envelope -/

/-- An HTTP request, as the routing layer sees it. -/
structure HttpReq where
  method : String
  path : String
deriving DecidableEq, Repr

/-- An HTTP response whose JSON body is an object, kept as name/value
pairs. -/
structure HttpRes where
  status : Nat
  body : List (String × String)
deriving DecidableEq, Repr

/-- Modelled from the spec: the route table (`./routes`, mounted at
`/api/v1`) is not in the repository sources; it is abstracted as a partial
handler that answers exactly the requests matching a registered
route/method. -/
def mountedRouter (router : HttpReq → Option HttpRes) (req : HttpReq) :
    Option HttpRes :=
  if req.path.startsWith "/api/v1" then router req else none

/-- The app dispatch: the mounted router first, then the `app.all`
catch-all on every path, answering 405 `Method not allowed`. -/
def appHandle (router : HttpReq → Option HttpRes) (req : HttpReq) : HttpRes :=
  match mountedRouter router req with
  | some r => r
  | none => { status := 405, body := [("error", "Method not allowed")] }

/-- An enveloped JSON response of `serverError`: status code, the fixed
`status` field and the `message` field. -/
structure EnvRes where
  status : Nat
  statusField : String
  message : String
deriving DecidableEq, Repr

/-- Source `serverError(res, error)`: a 500 response whose message is a fixed
generic sentence when the environment is `production` and the detailed error
otherwise.  The environment is passed explicitly. -/
def serverError (env : String) (error : String) : EnvRes :=
  { status := 500
    statusField := "error"
    message :=
      if env = "production" then
        "Your request could not be processed at this time. Kindly try again later."
      else error }

/-! ## Record-existence lookups
(`checkIfUserExists` / `checkIfAnyMatchingRecordExists`) -/

/-- A document of the external document store: field name/value pairs. -/
abbrev Doc := List (String × String)

/-- The value of a field of a document. -/
def getField (d : Doc) (field : String) : Option String :=
  (d.find? (fun kv => kv.1 = field)).map (fun kv => kv.2)

/-- Whether a document matches every filter field exactly. -/
def matchesAll (keys : List (String × String)) (d : Doc) : Bool :=
  keys.all (fun kv => getField d kv.1 == some kv.2)

/-- Source `Model.findOne({ ...keys })`: the first document whose fields equal the
filter fields exactly, or absence. -/
def findOne (docs : List Doc) (keys : List (String × String)) : Option Doc :=
  docs.find? (matchesAll keys)

/-- Source `checkIfUserExists(keys)`: `User.findOne({ ...keys })` over the users
collection, passed explicitly. -/
def checkIfUserExists (users : List Doc) (keys : List (String × String)) :
    Option Doc :=
  findOne users keys

/-- Whether the pattern occurs at the head of the text. -/
def leadMatch : List Char → List Char → Bool
  | [], _ => true
  | _ :: _, [] => false
  | a :: p, b :: l => a == b && leadMatch p l

/-- Whether the pattern occurs anywhere in the text. -/
def occursIn (p : List Char) : List Char → Bool
  | [] => p.isEmpty
  | c :: rest => leadMatch p (c :: rest) || occursIn p rest

/-- Lowercasing of a string, character by character. -/
def lowerStr (s : String) : String :=
  ⟨s.data.map Char.toLower⟩

/-- Whether a string value matches `new RegExp(pattern, `ig`)` for a
literal (metacharacter-free) pattern: the pattern occurs in the value,
case-insensitively. -/
def regexIgTest (pattern : String) (value : String) : Bool :=
  occursIn (lowerStr pattern).data (lowerStr value).data

/-- Whether a document satisfies `query.or({ [field]: RegExp })` for some
filter field. -/
def matchesAnyRegex (fields : List (String × String)) (d : Doc) : Bool :=
  fields.any (fun kv =>
    match getField d kv.1 with
    | some v => regexIgTest kv.2 v
    | none => false)

/-- Source `checkIfAnyMatchingRecordExists(Model, fields)`: starts from
`Model.find()` and `query.or`-s a case-insensitive regular-expression
condition per filter field, so it returns every document some of whose
filter fields match case-insensitively; with no filter fields the query
stays unconstrained and returns the whole collection. -/
def checkIfAnyMatchingRecordExists (docs : List Doc)
    (fields : List (String × String)) : List Doc :=
  match fields with
  | [] => docs
  | _ => docs.filter (matchesAnyRegex fields)

/-! ## Theorems -/

/-- Claim C1: for every password P and every cost C, `comparePassword(P,
hashPassword(P, C))` returns true, and for every password Pv different
from P, `comparePassword(Pv, hashPassword(P, C))` returns false (under the
idealized collision-free bcrypt kernel). -/
theorem comparePassword_hashPassword (P Pv : String) (C s : Nat) :
    comparePassword P (hashPassword P C s) = true ∧
    (Pv ≠ P → comparePassword Pv (hashPassword P C s) = false) := by
  refine ⟨by simp [comparePassword, hashPassword, bcryptDigest], fun h => ?_⟩
  simp [comparePassword, hashPassword, bcryptDigest, h]

/-- Witness for C1 at a concrete password pair and cost. -/
theorem comparePassword_hashPassword_witness :
    comparePassword "hunter2" (hashPassword "hunter2" 10 7) = true ∧
    comparePassword "hunter3" (hashPassword "hunter2" 10 7) = false :=
  ⟨(comparePassword_hashPassword "hunter2" "hunter3" 10 7).1,
   (comparePassword_hashPassword "hunter2" "hunter3" 10 7).2 (by decide)⟩

/-- Claim C2: for every payload J, `verifyToken(generateToken(J))`
succeeds immediately after issuance (any positive expiresIn) and returns
exactly the original payload J. -/
theorem verifyToken_generateToken (secret : String) (now : Nat) (J : Payload)
    (d : Nat) (h : 0 < d) :
    verifyToken secret now (generateToken secret now J d) = .ok J := by
  simp only [verifyToken, generateToken, ne_eq, not_true_eq_false, if_false,
    ite_eq_right_iff]
  intro hle
  omega

/-- Witness for C2 at a concrete secret, instant, payload and the default
thirty-day expiry. -/
theorem verifyToken_generateToken_witness :
    verifyToken "s3cret" 1000
      (generateToken "s3cret" 1000 [("id", "1")] thirtyDays) =
      .ok [("id", "1")] :=
  verifyToken_generateToken "s3cret" 1000 [("id", "1")] thirtyDays (by decide)

/-- Claim C3: `verifyToken` fails with the invalid kind when the signature
does not verify against the process-wide secret — in particular when the
signed content of a well-signed token is altered — and with the expired
kind when the expiry claim has passed; the two kinds are distinguishable
by the caller. -/
theorem verifyToken_failure_kinds (secret : String) (now : Nat) (t : Token) :
    (t.sig ≠ jwtMac secret t.payload t.exp →
      verifyToken secret now t = .error .invalid) ∧
    (∀ p2, p2 ≠ t.payload → t.sig = jwtMac secret t.payload t.exp →
      verifyToken secret now { t with payload := p2 } = .error .invalid) ∧
    (t.sig = jwtMac secret t.payload t.exp → t.exp ≤ now →
      verifyToken secret now t = .error .expired) ∧
    TokenError.invalid ≠ TokenError.expired := by
  refine ⟨fun h => by simp [verifyToken, h], fun p2 hp hs => ?_, fun hs hle => ?_,
    by decide⟩
  · have hne : t.sig ≠ jwtMac secret p2 t.exp := by
      rw [hs]
      intro hcontra
      exact hp (congrArg (fun x => x.2.1) hcontra).symm
    simp [verifyToken, hne]
  · simp [verifyToken, hs, hle]

/-- Witness for C3: a token with a forged signature is rejected as
invalid, a tampered payload on a well-signed token is rejected as invalid,
and a well-signed token past its expiry is rejected as expired. -/
theorem verifyToken_failure_kinds_witness :
    verifyToken "s" 0 { payload := [], exp := 5, sig := ("x", [], 5) } =
      .error .invalid ∧
    verifyToken "s" 0
      { payload := [("id", "2")], exp := 5, sig := jwtMac "s" [] 5 } =
      .error .invalid ∧
    verifyToken "s" 9 { payload := [], exp := 5, sig := jwtMac "s" [] 5 } =
      .error .expired :=
  ⟨(verifyToken_failure_kinds "s" 0 ⟨[], 5, ("x", [], 5)⟩).1 (by decide),
   (verifyToken_failure_kinds "s" 0 ⟨[], 5, jwtMac "s" [] 5⟩).2.1
      [("id", "2")] (by decide) rfl,
   (verifyToken_failure_kinds "s" 9 ⟨[], 5, jwtMac "s" [] 5⟩).2.2.1 rfl
      (by decide)⟩

/-- Counterexample to C4 as stated: after `storeToRedis("user:42",
"Ama", 3600)` a fetch before expiry delivers the JSON-serialized string
`"\"Ama\""`, not the plain value `"Ama"` — the raw wire string reaches the
callback undecoded. -/
theorem getFromRedis_plainValue_counterexample :
    getFromRedis
      (healthyReply
        (storeToRedis (fun _ => none) 0 "user:42" (.jstr "Ama") 3600)
        1 "user:42")
      (fun r => r) = .delivered (some "\"Ama\"") ∧
    GetOutcome.delivered (α := Option String) (some "\"Ama\"") ≠
      .delivered (some "Ama") := by
  constructor
  · simp [getFromRedis, healthyReply, redisLookup, storeToRedis, JVal.stringify]
  · decide

/-- Claim C4 (amended): `getFromRedis(K, cb)` after `storeToRedis(K, V,
ttl)` and before the entry expires delivers the JSON-serialized string of
V to the callback (the caller must JSON-decode it to recover the plain
value), and after `removeFromRedis(K)` it signals absence regardless of
remaining TTL. -/
theorem getFromRedis_store_evict (st : RedisState) (now tFetch : Nat)
    (K : String) (V : JVal) (ttl : Nat) (h : tFetch < now + ttl) :
    getFromRedis
      (healthyReply (storeToRedis st now K V ttl) tFetch K) (fun r => r) =
      .delivered (some V.stringify) ∧
    ∀ t2,
      getFromRedis
        (healthyReply (removeFromRedis (storeToRedis st now K V ttl) K) t2 K)
        (fun r => r) = .delivered none := by
  constructor
  · simp [getFromRedis, healthyReply, redisLookup, storeToRedis, h]
  · intro t2
    simp [getFromRedis, healthyReply, redisLookup, removeFromRedis]

/-- Witness for C4 (amended) at a concrete key, value and TTL, fetching
one second after the store and evicting afterwards. -/
theorem getFromRedis_store_evict_witness :
    getFromRedis
      (healthyReply
        (storeToRedis (fun _ => none) 0 "user:42" (.jstr "Ama") 3600)
        1 "user:42")
      (fun r => r) = .delivered (some (JVal.jstr "Ama").stringify) ∧
    getFromRedis
      (healthyReply
        (removeFromRedis
          (storeToRedis (fun _ => none) 0 "user:42" (.jstr "Ama") 3600)
          "user:42")
        1 "user:42")
      (fun r => r) = .delivered none :=
  ⟨(getFromRedis_store_evict (fun _ => none) 0 1 "user:42" (.jstr "Ama") 3600
      (by decide)).1,
   (getFromRedis_store_evict (fun _ => none) 0 1 "user:42" (.jstr "Ama") 3600
      (by decide)).2 1⟩

/-- Claim C5: on a clean miss `getFromRedis` runs the callback on the
absent value as normal control flow and raises no error, while an
unreachable backend produces a thrown failure, which is distinct from any
delivered miss. -/
theorem getFromRedis_miss_vs_backendError (α : Type)
    (callback : Option String → α) (e : String) :
    getFromRedis (.ok none) callback = .delivered (callback none) ∧
    getFromRedis (.error e) callback = .thrown e ∧
    ∀ (r : α) (msg : String), GetOutcome.delivered r ≠ GetOutcome.thrown msg := by
  refine ⟨rfl, rfl, fun r msg hcontra => ?_⟩
  cases hcontra

/-- Witness for C5 at a concrete callback and error message. -/
theorem getFromRedis_miss_vs_backendError_witness :
    getFromRedis (.ok none) (fun r => r) = .delivered none ∧
    getFromRedis (.error "connection refused") (fun r => r) =
      .thrown "connection refused" ∧
    GetOutcome.delivered (α := Option String) none ≠ .thrown "connection refused" :=
  ⟨(getFromRedis_miss_vs_backendError (Option String) (fun r => r)
      "connection refused").1,
   (getFromRedis_miss_vs_backendError (Option String) (fun r => r)
      "connection refused").2.1,
   (getFromRedis_miss_vs_backendError (Option String) (fun r => r)
      "connection refused").2.2 none "connection refused"⟩

/-- Claim C6: in either runtime mode, `getRequestUser` after
`setRequestUser` returns the written user, and `getRequestUser` returns
absent on a request with no identity attached. -/
theorem getRequestUser_setRequestUser (mode : Bool) (r : Req) (u : UserObj) :
    getRequestUser mode (setRequestUser mode r u) = some u ∧
    (r.user = none → r.session.user = none → getRequestUser mode r = none) := by
  cases mode <;>
    exact ⟨by simp [getRequestUser, setRequestUser],
      fun h1 h2 => by simp [getRequestUser, h1, h2]⟩

/-- Witness for C6 in both modes on an empty request. -/
theorem getRequestUser_setRequestUser_witness :
    getRequestUser true (setRequestUser true ⟨none, ⟨none⟩⟩ [("id", "1")]) =
      some [("id", "1")] ∧
    getRequestUser false (setRequestUser false ⟨none, ⟨none⟩⟩ [("id", "1")]) =
      some [("id", "1")] ∧
    getRequestUser true ⟨none, ⟨none⟩⟩ = none ∧
    getRequestUser false ⟨none, ⟨none⟩⟩ = none :=
  ⟨(getRequestUser_setRequestUser true ⟨none, ⟨none⟩⟩ [("id", "1")]).1,
   (getRequestUser_setRequestUser false ⟨none, ⟨none⟩⟩ [("id", "1")]).1,
   (getRequestUser_setRequestUser true ⟨none, ⟨none⟩⟩ [("id", "1")]).2 rfl rfl,
   (getRequestUser_setRequestUser false ⟨none, ⟨none⟩⟩ [("id", "1")]).2 rfl rfl⟩

/-- Claim C7: every request matched by no registered route is answered
with status 405 and the exact JSON body with single field `error` set to
`Method not allowed`. -/
theorem appHandle_unmatched (router : HttpReq → Option HttpRes) (req : HttpReq)
    (h : mountedRouter router req = none) :
    appHandle router req = { status := 405, body := [("error", "Method not allowed")] } := by
  unfold appHandle
  rw [h]

/-- Witness for C7: an empty route table answers an unknown path with
405. -/
theorem appHandle_unmatched_witness :
    appHandle (fun _ => none) ⟨"GET", "/nope"⟩ =
      { status := 405, body := [("error", "Method not allowed")] } :=
  appHandle_unmatched (fun _ => none) ⟨"GET", "/nope"⟩ (by simp [mountedRouter])

/-- Claim C8: `serverError` responds with status 500; in production the
message is a fixed sentence independent of the error value, and in any
other environment the message is the detailed error. -/
theorem serverError_envelope (env e : String) :
    (serverError env e).status = 500 ∧
    (env = "production" → ∀ e2, serverError env e = serverError env e2) ∧
    (env ≠ "production" → (serverError env e).message = e) := by
  refine ⟨rfl, fun h e2 => ?_, fun h => ?_⟩
  · simp [serverError, h]
  · simp [serverError, h]

/-- Witness for C8: production hides two distinct errors behind the same
response; development surfaces the detailed error. -/
theorem serverError_envelope_witness :
    serverError "production" "boom" = serverError "production" "other" ∧
    (serverError "development" "boom").message = "boom" :=
  ⟨(serverError_envelope "production" "boom").2.1 rfl "other",
   (serverError_envelope "development" "boom").2.2 (by decide)⟩

/-- Counterexample to C9 as stated: with a single stored record whose
`name` is `AMA`, the filter `name = ama` finds nothing under exact
matching (`findOne`), yet `checkIfAnyMatchingRecordExists` returns the
record — its filters match case-insensitively (and partially). -/
theorem recordLookup_caseInsensitive_counterexample :
    findOne [[("name", "AMA")]] [("name", "ama")] = none ∧
    checkIfAnyMatchingRecordExists [[("name", "AMA")]] [("name", "ama")] =
      [[("name", "AMA")]] := by
  constructor
  · decide
  · decide

/-- Claim C9 (amended): `checkIfUserExists` looks up a single record by
exact-match filters (any record it returns satisfies every filter field
exactly, and absence means no stored record does), while
`checkIfAnyMatchingRecordExists` returns all records some filter field of
which matches as a case-insensitive regular expression. -/
theorem recordLookup_matching (docs : List Doc) (keys : List (String × String))
    (d : Doc) :
    (checkIfUserExists docs keys = some d →
      d ∈ docs ∧ matchesAll keys d = true) ∧
    (checkIfUserExists docs keys = none →
      ∀ d2 ∈ docs, matchesAll keys d2 = false) ∧
    (keys ≠ [] →
      (d ∈ checkIfAnyMatchingRecordExists docs keys ↔
        d ∈ docs ∧ matchesAnyRegex keys d = true)) := by
  refine ⟨fun h => ?_, fun h d2 hd2 => ?_, fun hk => ?_⟩
  · exact ⟨List.mem_of_find?_eq_some h, List.find?_some h⟩
  · have := List.find?_eq_none.mp h d2 hd2
    simpa using this
  · cases keys with
    | nil => exact absurd rfl hk
    | cons k ks =>
        simp [checkIfAnyMatchingRecordExists, List.mem_filter]

/-- Witness for C9 (amended): a concrete store where the exact lookup
succeeds on an exact filter, fails on a differently-cased filter, and the
regex lookup admits the differently-cased filter. -/
theorem recordLookup_matching_witness :
    ([("name", "AMA")] ∈ ([[("name", "AMA")]] : List Doc) ∧
      matchesAll [("name", "AMA")] [("name", "AMA")] = true) ∧
    matchesAll [("name", "ama")] [("name", "AMA")] = false ∧
    ([("name", "AMA")] ∈
      checkIfAnyMatchingRecordExists [[("name", "AMA")]] [("name", "ama")]) :=
  ⟨(recordLookup_matching [[("name", "AMA")]] [("name", "AMA")]
      [("name", "AMA")]).1 rfl,
   (recordLookup_matching [[("name", "AMA")]] [("name", "ama")]
      [("name", "AMA")]).2.1 (by decide) [("name", "AMA")] (by decide),
   ((recordLookup_matching [[("name", "AMA")]] [("name", "ama")]
      [("name", "AMA")]).2.2 (by decide)).mpr ⟨by decide, by decide⟩⟩

/-- Claim C10: in test mode the session accessors touch only the
per-request `user` field (the write leaves `session` unchanged, the read
depends only on `user`); outside test mode they touch only `session.user`
(the write leaves `user` unchanged, the read depends only on
`session.user`). -/
theorem sessionAccessor_frame (r r2 : Req) (u : UserObj) :
    (setRequestUser true r u).session = r.session ∧
    (setRequestUser true r u).user = some u ∧
    (setRequestUser false r u).user = r.user ∧
    (setRequestUser false r u).session.user = some u ∧
    (r.user = r2.user → getRequestUser true r = getRequestUser true r2) ∧
    (r.session.user = r2.session.user →
      getRequestUser false r = getRequestUser false r2) := by
  refine ⟨rfl, rfl, rfl, rfl, fun h => ?_, fun h => ?_⟩
  · simpa [getRequestUser] using h
  · simpa [getRequestUser] using h

/-- Witness for C10 on two concrete requests agreeing on the relevant
field. -/
theorem sessionAccessor_frame_witness :
    (setRequestUser true ⟨none, ⟨some []⟩⟩ [("id", "1")]).session =
      Session.mk (some []) ∧
    getRequestUser true ⟨none, ⟨some []⟩⟩ = getRequestUser true ⟨none, ⟨none⟩⟩ ∧
    getRequestUser false ⟨some [], ⟨none⟩⟩ = getRequestUser false ⟨none, ⟨none⟩⟩ :=
  ⟨(sessionAccessor_frame ⟨none, ⟨some []⟩⟩ ⟨none, ⟨none⟩⟩ [("id", "1")]).1,
   (sessionAccessor_frame ⟨none, ⟨some []⟩⟩ ⟨none, ⟨none⟩⟩ [("id", "1")]).2.2.2.2.1
      rfl,
   (sessionAccessor_frame ⟨some [], ⟨none⟩⟩ ⟨none, ⟨none⟩⟩ [("id", "1")]).2.2.2.2.2
      rfl⟩

end PremierLeague
